import Mathlib

/-!
Verification of the Lernify Road backend (src/main.py): a shallow embedding of
the curriculum catalog construction (ROADMAP), the grading loop and the
progression rules of submit_assessment, the roadmap view, and the dashboard
percentages, together with theorems settling the specification claims.

Python ints are modelled as Int where a request value can be arbitrary
(submitted step indices, submitted answers, stored progress values) and as Nat
where the source only ever produces non-negative values (catalog indices,
scores, list lengths).  The database state visible to one authenticated user is
a record holding that user's document and the attempt collection; an
HTTPException raised by the endpoint is modelled as an Except.error returned
together with the unchanged state (every raise in the source happens before any
write).
-/

namespace Lernify

/-- One multiple-choice question, as in the source dicts
`{"q": ..., "a": [...], "correct": 0}` (src/main.py). -/
structure Question where
  q : String
  a : List String
  correct : Int
  deriving DecidableEq

/-- A quiz dict `{"questions": [...]}`. -/
structure Quiz where
  questions : List Question
  deriving DecidableEq

/-- One base learning step of BASE_ROADMAP (src/main.py lines 98-309). -/
structure BaseStep where
  title : String
  description : String
  videos : List String
  quiz : Quiz
  deriving DecidableEq

/-- Records which branch of the ROADMAP build loop produced a step: the source
dicts carry no such tag, but the loop structurally distinguishes learning steps
from the generated assessment steps. -/
inductive StepKind where
  | lesson
  | assessment
  deriving DecidableEq

/-- One expanded ROADMAP step dict (src/main.py lines 318-342). -/
structure Step where
  index : Nat
  title : String
  description : String
  videos : List String
  quiz : Quiz
  kind : StepKind
  deriving DecidableEq

/-- `standard_20_questions` (src/main.py lines 72-95): the shared fixed
20-question bank used by every generated assessment step. -/
def standard_20_questions : List Question :=
  [ { q := "HTTP status 200 means?", a := ["OK", "Not Found"], correct := 0 },
    { q := "Which is a NoSQL DB?", a := ["MongoDB", "PostgreSQL"], correct := 0 },
    { q := "Git command to commit?", a := ["git commit", "git push"], correct := 0 },
    { q := "JSON.parse converts?", a := ["string->object", "object->string"], correct := 0 },
    { q := "Array method to transform items?", a := ["map", "find"], correct := 0 },
    { q := "Secure protocol for web?", a := ["HTTPS", "FTP"], correct := 0 },
    { q := "Container platform?", a := ["Docker", "Make"], correct := 0 },
    { q := "Cloud service model with Functions?", a := ["FaaS", "IaaS"], correct := 0 },
    { q := "Primary purpose of CI?", a := ["Automate builds/tests", "Design UI"], correct := 0 },
    { q := "DataFrame belongs to?", a := ["Pandas", "NumPy only"], correct := 0 },
    { q := "Python list literal?", a := ["[1,2]", "(1,2)"], correct := 0 },
    { q := "React is a?", a := ["library", "database"], correct := 0 },
    { q := "CSS property for spacing outside?", a := ["margin", "padding"], correct := 0 },
    { q := "OWASP item relates to?", a := ["Web security", "Graphic design"], correct := 0 },
    { q := "Android primary language?", a := ["Kotlin", "Swift"], correct := 0 },
    { q := "UX focuses on?", a := ["Experience", "Networking"], correct := 0 },
    { q := "e2e tests simulate?", a := ["User flows", "Static typing"], correct := 0 },
    { q := "Key in React lists used for?", a := ["stable identity", "styling"], correct := 0 },
    { q := "SQL stands for?", a := ["Structured Query Language", "Simple Query Logic"], correct := 0 },
    { q := "Version control platform?", a := ["GitHub", "Figma"], correct := 0 } ]

/-- Result of the grading loop of submit_assessment
(src/main.py lines 461-468, 481). -/
structure GradeResult where
  score : Nat
  total : Nat
  passed : Bool
  results : List Bool
  deriving DecidableEq

/-- The grading loop of submit_assessment (src/main.py lines 461-468) together
with the pass rule of line 481.  The source compares `answers[i] == q["correct"]`
positionally for `i` below `len(questions)`; with the answer count already
checked equal, this is the zipped comparison.  The source's pass test
`(score / max(total, 1)) >= 0.6` is a Python float comparison; for every
score/total pair these small integer ranges produce, it has exactly the value
of the rational comparison `score / max(total, 1) >= 3/5`, rendered here as the
integer inequality `3 * max(total, 1) <= 5 * score`. -/
def grade (questions : List Question) (answers : List Int) : GradeResult :=
  let results := (questions.zip answers).map (fun qa => qa.2 == qa.1.correct)
  let score := results.count true
  let total := questions.length
  let passed := decide (3 * max total 1 ≤ 5 * score)
  { score := score, total := total, passed := passed, results := results }

/-- `user["progress"].get(domain, 0)`: the per-user per-domain progress mapping
is modelled as an association list (a Mongo subdocument has each key at most
once; the operations below preserve that). -/
def progressGet (p : List (String × Int)) (d : String) : Int :=
  match p.find? (fun kv => kv.1 == d) with
  | some kv => kv.2
  | none => 0

/-- The Mongo update `$set {"progress.<domain>": v}` (src/main.py line 483):
sets the field if present, inserts it otherwise. -/
def progressSet (p : List (String × Int)) (d : String) (v : Int) : List (String × Int) :=
  if p.any (fun kv => kv.1 == d) then
    p.map (fun kv => if kv.1 == d then (d, v) else kv)
  else
    p ++ [(d, v)]

/-- BASE_ROADMAP entry "Frontend Development" (src/main.py lines 99-128). -/
def frontendBase : List BaseStep :=
  [ { title := "HTML & CSS Basics",
      description := "Learn structure and styling.",
      videos := ["https://www.youtube.com/watch?v=G3e-cpL7ofc",
                 "https://www.youtube.com/watch?v=1Rs2ND1ryYc"],
      quiz := { questions :=
        [ { q := "HTML stands for?",
            a := ["HyperText Markup Language", "Hyperlinks and Text Markup Language"],
            correct := 0 },
          { q := "CSS is used for?", a := ["Styling", "Database"], correct := 0 } ] } },
    { title := "JavaScript Fundamentals",
      description := "Variables, functions, DOM.",
      videos := ["https://www.youtube.com/watch?v=PkZNo7MFNFg"],
      quiz := { questions :=
        [ { q := "typeof null is?", a := ["object", "null"], correct := 0 } ] } },
    { title := "React Basics",
      description := "Components and hooks.",
      videos := ["https://www.youtube.com/watch?v=bMknfKXIFA8"],
      quiz := { questions :=
        [ { q := "React is a ...", a := ["library", "framework"], correct := 0 } ] } } ]

/-- BASE_ROADMAP entry "Backend Development" (src/main.py lines 129-146). -/
def backendBase : List BaseStep :=
  [ { title := "HTTP & REST",
      description := "Understand APIs.",
      videos := ["https://www.youtube.com/watch?v=Q-BpqyOT3a8"],
      quiz := { questions :=
        [ { q := "HTTP status 200 means?", a := ["OK", "Not Found"], correct := 0 } ] } },
    { title := "Databases",
      description := "SQL vs NoSQL.",
      videos := ["https://www.youtube.com/watch?v=ztHopE5Wnpc"],
      quiz := { questions :=
        [ { q := "MongoDB is ...", a := ["NoSQL", "SQL"], correct := 0 } ] } } ]

/-- BASE_ROADMAP entry "AI/ML" (src/main.py lines 147-164). -/
def aimlBase : List BaseStep :=
  [ { title := "Python Basics",
      description := "Syntax and data structures.",
      videos := ["https://www.youtube.com/watch?v=_uQrJ0TkZlc"],
      quiz := { questions :=
        [ { q := "Which is a list?", a := ["[1,2,3]", "(1,2,3)"], correct := 0 } ] } },
    { title := "NumPy & Pandas",
      description := "Data handling.",
      videos := ["https://www.youtube.com/watch?v=vmEHCJofslg"],
      quiz := { questions :=
        [ { q := "Pandas primary structure?", a := ["DataFrame", "Tensor"], correct := 0 } ] } } ]

/-- BASE_ROADMAP entry "Full-Stack Development" (src/main.py lines 165-182). -/
def fullstackBase : List BaseStep :=
  [ { title := "Frontend + Backend Basics",
      description := "Understand client-server and rendering.",
      videos := ["https://www.youtube.com/watch?v=1Rs2ND1ryYc",
                 "https://www.youtube.com/watch?v=Q-BpqyOT3a8"],
      quiz := { questions :=
        [ { q := "What is REST?",
            a := ["Architectural style", "Programming language"], correct := 0 } ] } },
    { title := "API integration",
      description := "Connect frontend to backend APIs.",
      videos := ["https://www.youtube.com/watch?v=9I8NzKj2sYo"],
      quiz := { questions :=
        [ { q := "HTTP method to create?", a := ["POST", "GET"], correct := 0 } ] } } ]

/-- BASE_ROADMAP entry "DevOps" (src/main.py lines 183-200). -/
def devopsBase : List BaseStep :=
  [ { title := "Version Control",
      description := "Git and GitHub.",
      videos := ["https://www.youtube.com/watch?v=Uszj_k0DGsg"],
      quiz := { questions :=
        [ { q := "Command to commit?", a := ["git commit", "git push"], correct := 0 } ] } },
    { title := "CI/CD Basics",
      description := "Pipelines and deployments.",
      videos := ["https://www.youtube.com/watch?v=scEDHsr3APg"],
      quiz := { questions :=
        [ { q := "CI stands for?",
            a := ["Continuous Integration", "Code Injection"], correct := 0 } ] } } ]

/-- BASE_ROADMAP entry "Cloud Computing" (src/main.py lines 201-218). -/
def cloudBase : List BaseStep :=
  [ { title := "Cloud Fundamentals",
      description := "IaaS, PaaS, SaaS.",
      videos := ["https://www.youtube.com/watch?v=3hLmDS179YE"],
      quiz := { questions :=
        [ { q := "S3 is?", a := ["Object storage", "Compute service"], correct := 0 } ] } },
    { title := "Serverless",
      description := "Functions as a Service.",
      videos := ["https://www.youtube.com/watch?v=EBSdyoO3goc"],
      quiz := { questions :=
        [ { q := "AWS Lambda type?", a := ["FaaS", "IaaS"], correct := 0 } ] } } ]

/-- BASE_ROADMAP entry "Data Engineering" (src/main.py lines 219-236). -/
def dataengBase : List BaseStep :=
  [ { title := "ETL Basics",
      description := "Extract, Transform, Load.",
      videos := ["https://www.youtube.com/watch?v=fuP4Kva87m8"],
      quiz := { questions :=
        [ { q := "T in ETL?", a := ["Transform", "Transfer"], correct := 0 } ] } },
    { title := "Big Data Systems",
      description := "Hadoop/Spark overview.",
      videos := ["https://www.youtube.com/watch?v=7ooZ4S7Ay6Y"],
      quiz := { questions :=
        [ { q := "Spark is for?",
            a := ["Distributed computing", "Web styling"], correct := 0 } ] } } ]

/-- BASE_ROADMAP entry "Cybersecurity" (src/main.py lines 237-254). -/
def cyberBase : List BaseStep :=
  [ { title := "Security Basics",
      description := "CIA triad.",
      videos := ["https://www.youtube.com/watch?v=inWWhr5tnEA"],
      quiz := { questions :=
        [ { q := "CIA triad C?", a := ["Confidentiality", "Computation"], correct := 0 } ] } },
    { title := "OWASP Top 10",
      description := "Common web risks.",
      videos := ["https://www.youtube.com/watch?v=EoaDgUgS6QA"],
      quiz := { questions :=
        [ { q := "SQLi targets?", a := ["Databases", "File system"], correct := 0 } ] } } ]

/-- BASE_ROADMAP entry "Mobile Development" (src/main.py lines 255-272). -/
def mobileBase : List BaseStep :=
  [ { title := "Mobile Platforms",
      description := "Android vs iOS.",
      videos := ["https://www.youtube.com/watch?v=fis26HvvDII"],
      quiz := { questions :=
        [ { q := "Android language?", a := ["Kotlin", "Swift"], correct := 0 } ] } },
    { title := "Cross-platform",
      description := "React Native overview.",
      videos := ["https://www.youtube.com/watch?v=0-S5a0eXPoc"],
      quiz := { questions :=
        [ { q := "React Native uses?", a := ["JavaScript", "Java only"], correct := 0 } ] } } ]

/-- BASE_ROADMAP entry "UI/UX Design" (src/main.py lines 273-290). -/
def uiuxBase : List BaseStep :=
  [ { title := "Design Principles",
      description := "Hierarchy, contrast, spacing.",
      videos := ["https://www.youtube.com/watch?v=_ZKX3xHka0k"],
      quiz := { questions :=
        [ { q := "UX focuses on?", a := ["Experience", "Backend"], correct := 0 } ] } },
    { title := "Prototyping",
      description := "Wireframes to hi-fi.",
      videos := ["https://www.youtube.com/watch?v=hz2L1v8mK8w"],
      quiz := { questions :=
        [ { q := "Tool for UI design?", a := ["Figma", "Docker"], correct := 0 } ] } } ]

/-- BASE_ROADMAP entry "QA Automation" (src/main.py lines 291-308). -/
def qaBase : List BaseStep :=
  [ { title := "Testing Fundamentals",
      description := "Unit, integration, e2e.",
      videos := ["https://www.youtube.com/watch?v=Eu35xM76kKY"],
      quiz := { questions :=
        [ { q := "e2e tests simulate?", a := ["User flows", "Code style"], correct := 0 } ] } },
    { title := "Automation Tools",
      description := "Selenium/Cypress basics.",
      videos := ["https://www.youtube.com/watch?v=7N63cMKOs44"],
      quiz := { questions :=
        [ { q := "Cypress is for?", a := ["Web testing", "Image editing"], correct := 0 } ] } } ]

/-- BASE_ROADMAP (src/main.py lines 98-309), in the source's insertion order. -/
def BASE_ROADMAP : List (String × List BaseStep) :=
  [ ("Frontend Development", frontendBase),
    ("Backend Development", backendBase),
    ("AI/ML", aimlBase),
    ("Full-Stack Development", fullstackBase),
    ("DevOps", devopsBase),
    ("Cloud Computing", cloudBase),
    ("Data Engineering", dataengBase),
    ("Cybersecurity", cyberBase),
    ("Mobile Development", mobileBase),
    ("UI/UX Design", uiuxBase),
    ("QA Automation", qaBase) ]

/-- A learning step appended by the build loop (src/main.py lines 318-324). -/
def lessonStep (idx : Nat) (b : BaseStep) : Step :=
  { index := idx, title := b.title, description := b.description,
    videos := b.videos, quiz := b.quiz, kind := StepKind.lesson }

/-- A post-step assessment appended by the build loop
(src/main.py lines 327-333). -/
def assessStep (idx : Nat) (sI : Nat) : Step :=
  { index := idx,
    title := "Assessment after Step " ++ toString sI ++ " (20 questions)",
    description := "Evaluate your understanding of the previous step.",
    videos := [],
    quiz := { questions := standard_20_questions },
    kind := StepKind.assessment }

/-- The final comprehensive assessment appended after the loop
(src/main.py lines 336-342). -/
def finalStep (idx : Nat) : Step :=
  { index := idx,
    title := "Final Assessment (20 questions)",
    description := "Comprehensive assessment for the domain.",
    videos := [],
    quiz := { questions := standard_20_questions },
    kind := StepKind.assessment }

/-- The body of the ROADMAP build loop (src/main.py lines 313-343): `idx` is
the running step index (starting at 1), `sI` the 1-based position of the next
base lesson (the `enumerate(steps, start=1)` counter). -/
def expandAux (idx : Nat) (sI : Nat) : List BaseStep → List Step
  | [] => [finalStep idx]
  | b :: rest => lessonStep idx b :: assessStep (idx + 1) sI :: expandAux (idx + 2) (sI + 1) rest

/-- Expansion of one domain's base lesson list into its full step list. -/
def expandSteps (steps : List BaseStep) : List Step :=
  expandAux 1 1 steps

/-- ROADMAP (src/main.py lines 311-343): the full catalog built at startup. -/
def ROADMAP : List (String × List Step) :=
  BASE_ROADMAP.map (fun kv => (kv.1, expandSteps kv.2))

/-- `ROADMAP[domain]` guarded by `domain in ROADMAP`. -/
def roadmapLookup (domain : String) : Option (List Step) :=
  (ROADMAP.find? (fun kv => kv.1 == domain)).map (fun kv => kv.2)

/-- The authenticated user's document (collection "user", created at
src/main.py lines 391-402 and mutated only through update_one). -/
structure User where
  id : String
  first_name : String
  last_name : String
  email : String
  phone : String
  qualification : String
  password_hash : String
  salt : String
  domains : List String
  tokens : List String
  progress : List (String × Int)
  deriving DecidableEq

/-- An attempt document (src/main.py lines 471-477). -/
structure Attempt where
  user_id : String
  domain : String
  step_index : Int
  score : Nat
  total : Nat
  deriving DecidableEq

/-- The database state visible to one authenticated user: that user's document
and the "attempt" collection. -/
structure DB where
  user : User
  attempts : List Attempt
  deriving DecidableEq

/-- The distinct HTTPExceptions raised by the core routes:
404 "Domain not found", 404 "Step not found",
400 "You must complete previous step first", 400 "Answer count mismatch". -/
inductive ApiError where
  | domainNotFound
  | stepNotFound
  | outOfSequence
  | answerCountMismatch
  deriving DecidableEq

/-- The JSON body returned by submit_assessment (src/main.py line 485). -/
structure SubmitResponse where
  score : Nat
  total : Nat
  passed : Bool
  results : List Bool
  deriving DecidableEq

/-- POST /assessment/submit (src/main.py lines 444-485).  Every raise in the
source happens before any database write, so the error branches return the
state unchanged; on the success path the attempt insert always happens and the
progress write happens exactly when the grade passed. -/
def submit_assessment (db : DB) (domain : String) (step_index : Int)
    (answers : List Int) : DB × Except ApiError SubmitResponse :=
  match roadmapLookup domain with
  | none => (db, Except.error ApiError.domainNotFound)
  | some steps =>
    match steps.find? (fun s => ((s.index : Int) == step_index)) with
    | none => (db, Except.error ApiError.stepNotFound)
    | some step =>
      let current_progress := progressGet db.user.progress domain
      if step_index ≠ current_progress + 1 then
        (db, Except.error ApiError.outOfSequence)
      else
        let questions := step.quiz.questions
        if answers.length ≠ questions.length then
          (db, Except.error ApiError.answerCountMismatch)
        else
          let g := grade questions answers
          let attempt : Attempt :=
            { user_id := db.user.id, domain := domain, step_index := step_index,
              score := g.score, total := g.total }
          let db1 : DB := { db with attempts := db.attempts ++ [attempt] }
          let db2 : DB :=
            if g.passed then
              { db1 with user := { db1.user with
                  progress := progressSet db1.user.progress domain step_index } }
            else db1
          (db2, Except.ok { score := g.score, total := g.total,
                            passed := g.passed, results := g.results })

/-- GET /roadmap/domain (src/main.py lines 431-442): each step paired with its
"locked" flag `step["index"] > progress_for_domain + 1`, plus the progress. -/
def get_roadmap (user : User) (domain : String) :
    Except ApiError (List (Step × Bool) × Int) :=
  match roadmapLookup domain with
  | none => Except.error ApiError.domainNotFound
  | some steps =>
    let prog := progressGet user.progress domain
    Except.ok (steps.map (fun st => (st, decide ((st.index : Int) > prog + 1))), prog)

/-- One dashboard percentage (src/main.py line 523):
`int((done / max(total, 1)) * 100)`.  The source computes this with Python
float arithmetic and truncation; for the step counts the catalog produces
(5 and 7) and non-negative progress values, that equals the integer floor
division written here. -/
def progressPercent (done : Int) (total : Nat) : Int :=
  (100 * done) / (max (total : Int) 1)

/-- The per-domain percentage map of GET /dashboard
(src/main.py lines 519-524). -/
def progress_pct (progress : List (String × Int)) : List (String × Int) :=
  ROADMAP.map (fun kv => (kv.1, progressPercent (progressGet progress kv.1) kv.2.length))

/-- GET /dashboard (src/main.py lines 514-525). -/
def dashboard (db : DB) : List Attempt × List (String × Int) :=
  (db.attempts.filter (fun a => a.user_id == db.user.id),
   progress_pct db.user.progress)

/-- Running a sequence of submissions (domain, step index, answers) by the
authenticated user, threading the state. -/
def runSubmissions (db : DB) (subs : List (String × Int × List Int)) : DB :=
  subs.foldl (fun acc s => (submit_assessment acc s.1 s.2.1 s.2.2).1) db

/-! ### Helper lemmas about the progress mapping -/

lemma find_map_set (p : List (String × Int)) (d : String) (v : Int) :
    (p.map (fun kv => if kv.1 == d then (d, v) else kv)).find? (fun kv => kv.1 == d)
      = (p.find? (fun kv => kv.1 == d)).map (fun _ => (d, v)) := by
  induction p with
  | nil => rfl
  | cons kv rest ih =>
    simp only [List.map_cons]
    by_cases h : (kv.1 == d) = true
    · rw [if_pos h, @List.find?_cons_of_pos _ (fun kv => kv.1 == d) (d, v) _ (by simp),
          @List.find?_cons_of_pos _ (fun kv => kv.1 == d) kv _ h]
      rfl
    · rw [if_neg h, @List.find?_cons_of_neg _ (fun kv => kv.1 == d) kv _ h,
          @List.find?_cons_of_neg _ (fun kv => kv.1 == d) kv _ h]
      exact ih

lemma find_map_set_ne (p : List (String × Int)) (d d' : String) (v : Int)
    (hne : d' ≠ d) :
    (p.map (fun kv => if kv.1 == d then (d, v) else kv)).find? (fun kv => kv.1 == d')
      = p.find? (fun kv => kv.1 == d') := by
  have hd : ((d : String) == d') = false := beq_eq_false_iff_ne.mpr (Ne.symm hne)
  induction p with
  | nil => rfl
  | cons kv rest ih =>
    simp only [List.map_cons]
    by_cases h : (kv.1 == d) = true
    · have h1 : kv.1 = d := by simpa using h
      have h2 : (kv.1 == d') = false := by rw [h1]; exact hd
      rw [if_pos h, @List.find?_cons_of_neg _ (fun kv => kv.1 == d') (d, v) _ (by simp [hd]),
          @List.find?_cons_of_neg _ (fun kv => kv.1 == d') kv _ (by simp [h2])]
      exact ih
    · rw [if_neg h]
      by_cases h2 : (kv.1 == d') = true
      · rw [@List.find?_cons_of_pos _ (fun kv => kv.1 == d') kv _ h2,
            @List.find?_cons_of_pos _ (fun kv => kv.1 == d') kv _ h2]
      · rw [@List.find?_cons_of_neg _ (fun kv => kv.1 == d') kv _ h2,
            @List.find?_cons_of_neg _ (fun kv => kv.1 == d') kv _ h2]
        exact ih

lemma find_none_of_any_false (p : List (String × Int)) (d : String)
    (h : p.any (fun kv => kv.1 == d) = false) :
    p.find? (fun kv => kv.1 == d) = none := by
  rw [List.find?_eq_none]
  intro x hx
  rw [List.any_eq_false] at h
  exact h x hx

lemma progressGet_progressSet_self (p : List (String × Int)) (d : String) (v : Int) :
    progressGet (progressSet p d v) d = v := by
  unfold progressGet progressSet
  by_cases hany : p.any (fun kv => kv.1 == d) = true
  · rw [if_pos hany, find_map_set]
    cases hf : p.find? (fun kv => kv.1 == d) with
    | none =>
      rw [List.find?_eq_none] at hf
      rw [List.any_eq_true] at hany
      obtain ⟨x, hmem, hpred⟩ := hany
      exact absurd hpred (hf x hmem)
    | some kv => simp
  · have hfalse : p.any (fun kv => kv.1 == d) = false := by
      rw [← Bool.not_eq_true]; exact hany
    rw [if_neg hany, List.find?_append, find_none_of_any_false p d hfalse]
    rw [@List.find?_cons_of_pos _ (fun kv => kv.1 == d) (d, v) _ (by simp)]
    rfl

lemma progressGet_progressSet_ne (p : List (String × Int)) (d d' : String) (v : Int)
    (hne : d' ≠ d) :
    progressGet (progressSet p d v) d' = progressGet p d' := by
  have hd : ((d : String) == d') = false := beq_eq_false_iff_ne.mpr (Ne.symm hne)
  unfold progressGet progressSet
  by_cases hany : p.any (fun kv => kv.1 == d) = true
  · rw [if_pos hany, find_map_set_ne p d d' v hne]
  · rw [if_neg hany, List.find?_append]
    cases hf : p.find? (fun kv => kv.1 == d') with
    | some kv => simp
    | none =>
      rw [@List.find?_cons_of_neg _ (fun kv => kv.1 == d') (d, v) _ (by simp [hd])]
      simp [List.find?]

/-! ### Helper lemmas about grading -/

lemma grade_total (qs : List Question) (ans : List Int) :
    (grade qs ans).total = qs.length := rfl

lemma grade_score_eq_count (qs : List Question) (ans : List Int) :
    (grade qs ans).score = (grade qs ans).results.count true := rfl

lemma grade_results_length (qs : List Question) (ans : List Int)
    (h : ans.length = qs.length) :
    (grade qs ans).results.length = qs.length := by
  simp [grade, h]

lemma grade_results_getElem? (qs : List Question) (ans : List Int) (i : Nat)
    (q : Question) (a : Int) (hq : qs[i]? = some q) (ha : ans[i]? = some a) :
    (grade qs ans).results[i]? = some (a == q.correct) := by
  have hz : (qs.zip ans)[i]? = some (q, a) :=
    (List.getElem?_zip_eq_some).mpr ⟨hq, ha⟩
  simp [grade, List.getElem?_map, hz]

lemma grade_passed_iff_ratio (qs : List Question) (ans : List Int)
    (h : 0 < qs.length) :
    ((grade qs ans).passed = true ↔
      (0.6 : ℚ) ≤ ((grade qs ans).score : ℚ) / ((grade qs ans).total : ℚ)) := by
  have htot : (grade qs ans).total = qs.length := rfl
  have hpassed : (grade qs ans).passed
      = decide (3 * max (grade qs ans).total 1 ≤ 5 * (grade qs ans).score) := rfl
  rw [hpassed, htot, decide_eq_true_eq, Nat.max_eq_left h]
  have hq : (0 : ℚ) < (qs.length : ℚ) := by exact_mod_cast h
  rw [le_div_iff₀ hq, show (0.6 : ℚ) = 3 / 5 by norm_num, div_mul_eq_mul_div,
      div_le_iff₀ (by norm_num : (0 : ℚ) < 5)]
  rw [mul_comm ((grade qs ans).score : ℚ) 5]
  constructor
  · intro hle
    exact_mod_cast hle
  · intro hle
    exact_mod_cast hle

lemma grade_passed_of_total_zero (qs : List Question) (ans : List Int)
    (h : qs.length = 0) : (grade qs ans).passed = false := by
  rw [List.length_eq_zero] at h
  subst h
  simp [grade]

/-! ### Helper lemmas about the catalog expansion -/

lemma expandAux_length (steps : List BaseStep) :
    ∀ idx sI, (expandAux idx sI steps).length = 2 * steps.length + 1 := by
  induction steps with
  | nil => intro idx sI; rfl
  | cons b rest ih =>
    intro idx sI
    simp only [expandAux, List.length_cons, ih, List.length_cons]
    omega

lemma expandAux_index_map (steps : List BaseStep) :
    ∀ idx sI, (expandAux idx sI steps).map (fun st => st.index)
      = List.range' idx (2 * steps.length + 1) := by
  induction steps with
  | nil =>
    intro idx sI
    simp [expandAux, finalStep, List.range'_succ]
  | cons b rest ih =>
    intro idx sI
    have harith : 2 * (b :: rest).length + 1 = ((2 * rest.length + 1) + 1) + 1 := by
      simp [List.length_cons]; omega
    rw [harith]
    simp only [expandAux, List.map_cons, List.range'_succ, ih, lessonStep, assessStep]

lemma expandAux_kinds (steps : List BaseStep) :
    ∀ idx sI, (expandAux idx sI steps).map (fun st => st.kind)
      = (List.replicate steps.length [StepKind.lesson, StepKind.assessment]).flatten
          ++ [StepKind.assessment] := by
  induction steps with
  | nil => intro idx sI; rfl
  | cons b rest ih =>
    intro idx sI
    simp [expandAux, lessonStep, assessStep, List.replicate_succ, ih]

lemma expandAux_assessment_quiz (steps : List BaseStep) :
    ∀ idx sI, ∀ st ∈ expandAux idx sI steps,
      st.kind = StepKind.assessment → st.quiz.questions = standard_20_questions := by
  induction steps with
  | nil =>
    intro idx sI st hmem _
    simp only [expandAux, List.mem_singleton] at hmem
    subst hmem; rfl
  | cons b rest ih =>
    intro idx sI st hmem hkind
    simp only [expandAux, List.mem_cons] at hmem
    rcases hmem with h | h | h
    · subst h; exact absurd hkind (by simp [lessonStep])
    · subst h; rfl
    · exact ih (idx + 2) (sI + 1) st h hkind

lemma expandAux_lesson_getElem? (steps : List BaseStep) :
    ∀ idx sI i b, steps[i]? = some b →
      (expandAux idx sI steps)[2 * i]? = some (lessonStep (idx + 2 * i) b) := by
  induction steps with
  | nil => intro idx sI i b h; simp at h
  | cons b0 rest ih =>
    intro idx sI i b h
    cases i with
    | zero => simp only [List.getElem?_cons_zero, Option.some.injEq] at h; subst h; rfl
    | succ i =>
      simp only [List.getElem?_cons_succ] at h
      have h2 : 2 * (i + 1) = (2 * i) + 1 + 1 := by omega
      rw [h2]
      simp only [expandAux, List.getElem?_cons_succ]
      have := ih (idx + 2) (sI + 1) i b h
      rw [this]
      have h3 : idx + 2 + 2 * i = idx + (2 * i + 1 + 1) := by omega
      rw [h3]

lemma expandSteps_getLast_kind (steps : List BaseStep) :
    ((expandSteps steps).getLast?).map (fun st => st.kind) = some StepKind.assessment := by
  rw [← List.getLast?_map, expandSteps, expandAux_kinds]
  exact List.getLast?_concat _

/-! ### Case analysis of submit_assessment -/

/-- The attempt document written on the success path of submit_assessment. -/
def attemptOf (db : DB) (domain : String) (si : Int) (g : GradeResult) : Attempt :=
  { user_id := db.user.id, domain := domain, step_index := si,
    score := g.score, total := g.total }

/-- Full case analysis of submit_assessment: either it raises (returning the
state unchanged), or every validation passed and the final state appends the
attempt and advances progress exactly when the grade passed. -/
lemma submit_spec (db : DB) (domain : String) (si : Int) (answers : List Int) :
    (∃ e, submit_assessment db domain si answers = (db, Except.error e)) ∨
    (∃ steps step,
      roadmapLookup domain = some steps ∧
      steps.find? (fun s => ((s.index : Int) == si)) = some step ∧
      si = progressGet db.user.progress domain + 1 ∧
      answers.length = step.quiz.questions.length ∧
      submit_assessment db domain si answers =
        (let g := grade step.quiz.questions answers
         ({ user :=
              if g.passed then
                { db.user with progress := progressSet db.user.progress domain si }
              else db.user,
            attempts := db.attempts ++ [attemptOf db domain si g] },
          Except.ok { score := g.score, total := g.total,
                      passed := g.passed, results := g.results }))) := by
  cases hdom : roadmapLookup domain with
  | none =>
    refine Or.inl ⟨ApiError.domainNotFound, ?_⟩
    simp only [submit_assessment, hdom]
  | some steps =>
    cases hfind : steps.find? (fun s => ((s.index : Int) == si)) with
    | none =>
      refine Or.inl ⟨ApiError.stepNotFound, ?_⟩
      simp only [submit_assessment, hdom, hfind]
    | some step =>
      by_cases hseq : si ≠ progressGet db.user.progress domain + 1
      · refine Or.inl ⟨ApiError.outOfSequence, ?_⟩
        simp only [submit_assessment, hdom, hfind]
        rw [if_pos hseq]
      · push_neg at hseq
        by_cases hlen : answers.length ≠ step.quiz.questions.length
        · refine Or.inl ⟨ApiError.answerCountMismatch, ?_⟩
          simp only [submit_assessment, hdom, hfind]
          rw [if_neg (by simp [hseq]), if_pos hlen]
        · push_neg at hlen
          refine Or.inr ⟨steps, step, rfl, hfind, hseq, hlen, ?_⟩
          simp only [submit_assessment, hdom, hfind]
          rw [if_neg (by simp [hseq]), if_neg (by simp [hlen])]
          by_cases hp : (grade step.quiz.questions answers).passed
          · simp [hp, attemptOf]
          · simp only [Bool.not_eq_true] at hp
            simp [hp, attemptOf]

/-! ### Concrete fixtures used by witnesses and counterexamples -/

/-- A registered user with no progress yet. -/
def user0 : User :=
  { id := "u1", first_name := "Ada", last_name := "Lovelace",
    email := "ada@example.com", phone := "1234567890", qualification := "BCA",
    password_hash := "deadbeef", salt := "cafe", domains := [], tokens := ["tok"],
    progress := [] }

/-- Database state for `user0` with an empty attempt collection. -/
def db0 : DB := { user := user0, attempts := [] }

/-- Database state for a user who has completed step 1 of
"Backend Development". -/
def db1ex : DB :=
  { user := { user0 with progress := [("Backend Development", 1)] }, attempts := [] }

/-! ### Claims -/

/-- Claim C1, amended: for an authenticated submission whose step index names
an existing step of the domain and differs from completed + 1, the controller
signals OutOfSequence and performs no grading and no mutation (the state comes
back unchanged, so no Attempt is recorded and progress is untouched); a step
index naming no step of the domain signals StepNotFound instead, likewise with
no grading and no mutation. -/
theorem c1_out_of_sequence_rejected :
    (∀ (db : DB) (domain : String) (si : Int) (answers : List Int)
        (steps : List Step),
        roadmapLookup domain = some steps →
        (steps.find? (fun s => ((s.index : Int) == si))).isSome = true →
        si ≠ progressGet db.user.progress domain + 1 →
        submit_assessment db domain si answers
          = (db, Except.error ApiError.outOfSequence)) ∧
    (∀ (db : DB) (domain : String) (si : Int) (answers : List Int)
        (steps : List Step),
        roadmapLookup domain = some steps →
        steps.find? (fun s => ((s.index : Int) == si)) = none →
        submit_assessment db domain si answers
          = (db, Except.error ApiError.stepNotFound)) := by
  constructor
  · intro db domain si answers steps hdom hsome hseq
    obtain ⟨step, hfind⟩ := Option.isSome_iff_exists.mp hsome
    simp only [submit_assessment, hdom, hfind]
    rw [if_pos hseq]
  · intro db domain si answers steps hdom hfind
    simp only [submit_assessment, hdom, hfind]

/-- Claim C1, counterexample to the claim as stated: with completed = 0 in
"Backend Development", step index 999 differs from completed + 1, yet the
controller signals StepNotFound (404 "Step not found"), not OutOfSequence —
the step lookup happens before the sequence check. -/
theorem c1_counterexample :
    progressGet db0.user.progress "Backend Development" = 0 ∧
    (999 : Int) ≠ 0 + 1 ∧
    submit_assessment db0 "Backend Development" 999 []
      = (db0, Except.error ApiError.stepNotFound) ∧
    ApiError.stepNotFound ≠ ApiError.outOfSequence := by
  refine ⟨rfl, by decide, ?_, by decide⟩
  rfl

/-- Witness for C1: skipping from completed = 1 to step 3 of
"Backend Development" is rejected OutOfSequence with the state unchanged, and
the nonexistent step index 999 is rejected StepNotFound with the state
unchanged. -/
theorem c1_witness :
    submit_assessment db1ex "Backend Development" 3 []
        = (db1ex, Except.error ApiError.outOfSequence) ∧
    submit_assessment db1ex "Backend Development" 999 []
        = (db1ex, Except.error ApiError.stepNotFound) := by
  constructor
  · exact c1_out_of_sequence_rejected.1 db1ex "Backend Development" 3 []
      (expandSteps backendBase) rfl (by decide) (by decide)
  · exact c1_out_of_sequence_rejected.2 db1ex "Backend Development" 999 []
      (expandSteps backendBase) rfl (by decide)

/-- Claim C2, amended: for every graded submission, passed is true iff
score / total >= 0.6 when total > 0; when total = 0 (an empty question set)
the code yields passed = false, since it computes score / max(total, 1) =
0 / 1 < 0.6 — and no catalog step has an empty question set, so total > 0 in
every submission that reaches grading. -/
theorem c2_passed_threshold :
    (∀ (questions : List Question) (answers : List Int),
        ((grade questions answers).total = 0 →
          (grade questions answers).passed = false) ∧
        (0 < (grade questions answers).total →
          ((grade questions answers).passed = true ↔
            (0.6 : ℚ) ≤ ((grade questions answers).score : ℚ)
                / ((grade questions answers).total : ℚ)))) ∧
    (∀ p ∈ ROADMAP, ∀ st ∈ p.2, 0 < st.quiz.questions.length) := by
  constructor
  · intro qs ans
    constructor
    · intro h
      exact grade_passed_of_total_zero qs ans (by rwa [grade_total] at h)
    · intro h
      exact grade_passed_iff_ratio qs ans (by rwa [grade_total] at h)
  · decide

/-- Claim C2, counterexample to the claim as stated: grading the empty
question set gives total = 0 and passed = false, where the claim asserts
passed would be true. -/
theorem c2_counterexample :
    (grade [] []).total = 0 ∧ (grade [] []).passed = false ∧
    (grade [] []).passed ≠ true := by
  decide

/-- Witness for C2: a perfect 20/20 submission against the shared question
bank passes, via the threshold characterisation. -/
theorem c2_witness :
    (grade standard_20_questions (List.replicate 20 0)).passed = true := by
  refine ((c2_passed_threshold.1 standard_20_questions (List.replicate 20 0)).2
    (by decide)).mpr ?_
  have hs : (grade standard_20_questions (List.replicate 20 0)).score = 20 := by decide
  have ht : (grade standard_20_questions (List.replicate 20 0)).total = 20 := by decide
  rw [hs, ht]
  norm_num

/-- Claim C3: for equal-length question and answer lists, grading produces a
results vector of the same length with results[i] = (answers[i] == correct_i),
score = the number of true entries, total = the length; any other answer
length is rejected AnswerCountMismatch with the state unchanged (so nothing
was mutated first). -/
theorem c3_grading_vector :
    (∀ (questions : List Question) (answers : List Int),
        answers.length = questions.length →
        ((grade questions answers).results.length = questions.length ∧
         (grade questions answers).total = questions.length ∧
         (grade questions answers).score
            = (grade questions answers).results.count true ∧
         (∀ (i : Nat) (q : Question) (a : Int),
            questions[i]? = some q → answers[i]? = some a →
            (grade questions answers).results[i]? = some (a == q.correct)))) ∧
    (∀ (db : DB) (domain : String) (si : Int) (answers : List Int)
        (steps : List Step) (n : Nat),
        roadmapLookup domain = some steps →
        (steps.find? (fun s => ((s.index : Int) == si))).map
            (fun st => st.quiz.questions.length) = some n →
        si = progressGet db.user.progress domain + 1 →
        answers.length ≠ n →
        submit_assessment db domain si answers
          = (db, Except.error ApiError.answerCountMismatch)) := by
  constructor
  · intro questions answers h
    exact ⟨grade_results_length questions answers h, grade_total questions answers,
      grade_score_eq_count questions answers,
      fun i q a hq ha => grade_results_getElem? questions answers i q a hq ha⟩
  · intro db domain si answers steps n hdom hmap hseq hlen
    cases hfind : steps.find? (fun s => ((s.index : Int) == si)) with
    | none => rw [hfind] at hmap; exact absurd hmap (by simp)
    | some step =>
      rw [hfind] at hmap
      have hn : step.quiz.questions.length = n := by simpa using hmap
      simp only [submit_assessment, hdom, hfind]
      rw [if_neg (by simp [hseq]), if_pos (by rw [hn]; exact hlen)]

/-- Witness for C3: grading the 20-question bank against 20 answers of 0 gives
a 20-entry results vector whose first entry compares the answer with the
stored correct index, and submitting 19 answers against the 20-question
assessment step 2 of "Backend Development" is rejected AnswerCountMismatch
with the state unchanged. -/
theorem c3_witness :
    (grade standard_20_questions (List.replicate 20 0)).results.length = 20 ∧
    (grade standard_20_questions (List.replicate 20 0)).results[0]?
        = some ((0 : Int) == (0 : Int)) ∧
    submit_assessment db1ex "Backend Development" 2 (List.replicate 19 0)
        = (db1ex, Except.error ApiError.answerCountMismatch) := by
  refine ⟨?_, ?_, ?_⟩
  · exact ((c3_grading_vector.1 standard_20_questions (List.replicate 20 0)
      (by decide)).1).trans (by decide)
  · exact (c3_grading_vector.1 standard_20_questions (List.replicate 20 0)
      (by decide)).2.2.2 0
      { q := "HTTP status 200 means?", a := ["OK", "Not Found"], correct := 0 }
      0 rfl rfl
  · exact c3_grading_vector.2 db1ex "Backend Development" 2 (List.replicate 19 0)
      (expandSteps backendBase) 20 rfl (by decide) (by decide) (by decide)

/-- Per-call monotonicity: one call to submit_assessment never decreases any
stored progress value. -/
lemma submit_progress_mono (db : DB) (domain : String) (si : Int)
    (answers : List Int) (d : String) :
    progressGet db.user.progress d ≤
      progressGet (submit_assessment db domain si answers).1.user.progress d := by
  rcases submit_spec db domain si answers with ⟨e, heq⟩ |
    ⟨steps, step, hdom, hfind, hseq, hlen, heq⟩
  · rw [heq]
  · rw [heq]
    by_cases hp : (grade step.quiz.questions answers).passed
    · simp only [hp, if_true]
      by_cases hd : d = domain
      · subst hd
        rw [progressGet_progressSet_self, hseq]
        omega
      · rw [progressGet_progressSet_ne _ _ _ _ hd]
    · simp only [Bool.not_eq_true] at hp
      simp [hp]

/-- Monotonicity threaded through any sequence of submissions. -/
lemma runSubmissions_progress_mono (subs : List (String × Int × List Int)) :
    ∀ (db : DB) (d : String),
      progressGet db.user.progress d ≤
        progressGet (runSubmissions db subs).user.progress d := by
  induction subs with
  | nil => intro db d; exact le_refl _
  | cons s rest ih =>
    intro db d
    calc progressGet db.user.progress d
        ≤ progressGet (submit_assessment db s.1 s.2.1 s.2.2).1.user.progress d :=
          submit_progress_mono db s.1 s.2.1 s.2.2 d
      _ ≤ progressGet (runSubmissions (submit_assessment db s.1 s.2.1 s.2.2).1
            rest).user.progress d := ih _ d
      _ = progressGet (runSubmissions db (s :: rest)).user.progress d := rfl

/-- Claim C4: stored progress never decreases across any sequence of
submissions; a successful (passing) submission sets the submitted domain's
value to exactly one more than the value read during validation; an error
leaves the state unchanged, and a failing grade leaves the progress mapping
unchanged. -/
theorem c4_progress_monotonic :
    (∀ (db : DB) (subs : List (String × Int × List Int)) (d : String),
        progressGet db.user.progress d ≤
          progressGet (runSubmissions db subs).user.progress d) ∧
    (∀ (db : DB) (domain : String) (si : Int) (answers : List Int),
        (submit_assessment db domain si answers).2.toOption.map
            SubmitResponse.passed = some true →
        progressGet (submit_assessment db domain si answers).1.user.progress domain
          = progressGet db.user.progress domain + 1) ∧
    (∀ (db : DB) (domain : String) (si : Int) (answers : List Int)
        (e : ApiError),
        (submit_assessment db domain si answers).2 = Except.error e →
        (submit_assessment db domain si answers).1 = db) ∧
    (∀ (db : DB) (domain : String) (si : Int) (answers : List Int),
        (submit_assessment db domain si answers).2.toOption.map
            SubmitResponse.passed = some false →
        (submit_assessment db domain si answers).1.user.progress
          = db.user.progress) := by
  refine ⟨fun db subs d => runSubmissions_progress_mono subs db d, ?_, ?_, ?_⟩
  · intro db domain si answers h
    rcases submit_spec db domain si answers with ⟨e, heq⟩ |
      ⟨steps, step, hdom, hfind, hseq, hlen, heq⟩
    · rw [heq] at h; simp [Except.toOption] at h
    · rw [heq] at h ⊢
      simp only [Except.toOption, Option.map_some] at h
      have hp : (grade step.quiz.questions answers).passed = true := by
        simpa using h
      simp only [hp, if_true]
      rw [progressGet_progressSet_self, hseq]
  · intro db domain si answers e h
    rcases submit_spec db domain si answers with ⟨e', heq⟩ |
      ⟨steps, step, hdom, hfind, hseq, hlen, heq⟩
    · rw [heq]
    · rw [heq] at h; exact absurd h (by simp)
  · intro db domain si answers h
    rcases submit_spec db domain si answers with ⟨e, heq⟩ |
      ⟨steps, step, hdom, hfind, hseq, hlen, heq⟩
    · rw [heq] at h; simp [Except.toOption] at h
    · rw [heq] at h ⊢
      simp only [Except.toOption, Option.map_some] at h
      have hp : (grade step.quiz.questions answers).passed = false := by
        simpa using h
      simp [hp]

/-- Witness for C4: passing step 1 of "Backend Development" from empty
progress advances the stored value from 0 to 1; the OutOfSequence rejection of
step 3 leaves the state unchanged; a failing grade (0/1) leaves the progress
mapping unchanged. -/
theorem c4_witness :
    progressGet (runSubmissions db0 [("Backend Development", 1, [0])]).user.progress
        "Backend Development" ≥ progressGet db0.user.progress "Backend Development" ∧
    progressGet (submit_assessment db0 "Backend Development" 1 [0]).1.user.progress
        "Backend Development" = progressGet db0.user.progress "Backend Development" + 1 ∧
    (submit_assessment db1ex "Backend Development" 3 []).1 = db1ex ∧
    (submit_assessment db0 "Backend Development" 1 [1]).1.user.progress
        = db0.user.progress := by
  refine ⟨c4_progress_monotonic.1 db0 [("Backend Development", 1, [0])]
      "Backend Development",
    c4_progress_monotonic.2.1 db0 "Backend Development" 1 [0] rfl,
    c4_progress_monotonic.2.2.1 db1ex "Backend Development" 3 []
      ApiError.outOfSequence rfl,
    c4_progress_monotonic.2.2.2 db0 "Backend Development" 1 [1] rfl⟩

/-- Claim C6: an Attempt (user id, domain, step index, score, total) is
appended exactly when validation passed — on every Except.ok outcome, passing
or failing grade alike — and never on an error outcome, where the whole state
comes back unchanged. -/
theorem c6_attempt_recording :
    (∀ (db : DB) (domain : String) (si : Int) (answers : List Int)
        (r : SubmitResponse),
        (submit_assessment db domain si answers).2 = Except.ok r →
        (submit_assessment db domain si answers).1.attempts
          = db.attempts ++ [{ user_id := db.user.id, domain := domain,
                              step_index := si, score := r.score,
                              total := r.total }]) ∧
    (∀ (db : DB) (domain : String) (si : Int) (answers : List Int)
        (e : ApiError),
        (submit_assessment db domain si answers).2 = Except.error e →
        (submit_assessment db domain si answers).1 = db) := by
  constructor
  · intro db domain si answers r h
    rcases submit_spec db domain si answers with ⟨e, heq⟩ |
      ⟨steps, step, hdom, hfind, hseq, hlen, heq⟩
    · rw [heq] at h; exact absurd h (by simp)
    · rw [heq] at h ⊢
      simp only [Except.ok.injEq] at h
      subst h
      simp [attemptOf]
  · intro db domain si answers e h
    rcases submit_spec db domain si answers with ⟨e', heq⟩ |
      ⟨steps, step, hdom, hfind, hseq, hlen, heq⟩
    · rw [heq]
    · rw [heq] at h; exact absurd h (by simp)

/-- Witness for C6: the failing 0/1 submission to step 1 of
"Backend Development" still appends its Attempt record, and the OutOfSequence
rejection of step 3 leaves the state (hence the attempt list) unchanged. -/
theorem c6_witness :
    (submit_assessment db0 "Backend Development" 1 [1]).1.attempts
        = db0.attempts ++ [{ user_id := "u1", domain := "Backend Development",
                             step_index := 1, score := 0, total := 1 }] ∧
    (submit_assessment db1ex "Backend Development" 3 []).1 = db1ex := by
  constructor
  · exact c6_attempt_recording.1 db0 "Backend Development" 1 [1]
      { score := 0, total := 1, passed := false, results := [false] } rfl
  · exact c6_attempt_recording.2 db1ex "Backend Development" 3 []
      ApiError.outOfSequence rfl

/-- Claim C7: the dashboard percentage is the floor of 100 * completed /
stepCount for every positive step count (for non-negative progress values, as
stored progress always is); with a step count of 0 and nothing completed the
guard max(total, 1) yields 0; in particular completed = 2 out of 5 steps
reports 40, as the dashboard does for "Backend Development"; and every catalog
domain has a positive step count, so the zero guard is never exercised. -/
theorem c7_progress_percent :
    (∀ (done : Int) (total : Nat), 0 ≤ done → 0 < total →
        progressPercent done total = ⌊(100 * (done : ℚ)) / (total : ℚ)⌋) ∧
    progressPercent 0 0 = 0 ∧
    progressPercent 2 5 = 40 ∧
    (∀ p ∈ ROADMAP, 0 < p.2.length) ∧
    ("Backend Development", (40 : Int)) ∈ progress_pct [("Backend Development", 2)] := by
  refine ⟨?_, by decide, by decide, by decide, by decide⟩
  intro done total h0 hpos
  unfold progressPercent
  have h1 : (1 : Int) ≤ (total : Int) := by exact_mod_cast hpos
  rw [max_eq_left h1,
      show (100 : ℚ) * (done : ℚ) = (((100 * done : Int) : ℚ)) by push_cast; ring,
      Rat.floor_intCast_div_natCast]

/-- Witness for C7: the floor formula evaluated at completed = 2,
stepCount = 5. -/
theorem c7_witness :
    progressPercent 2 5 = ⌊(100 * ((2 : Int) : ℚ)) / ((5 : Nat) : ℚ)⌋ ∧
    0 < (expandSteps backendBase).length := by
  constructor
  · exact c7_progress_percent.1 2 5 (by decide) (by decide)
  · exact c7_progress_percent.2.2.2.1 ("Backend Development", expandSteps backendBase)
      (by decide)

/-- Claim C8: in the roadmap view, a step's locked flag is true exactly when
its index exceeds completed + 1: every step with index at most completed + 1
comes back unlocked and every step beyond comes back locked. -/
theorem c8_locked_rule :
    ∀ (user : User) (domain : String) (enriched : List (Step × Bool)) (prog : Int),
      get_roadmap user domain = Except.ok (enriched, prog) →
      ∀ (i : Nat) (st : Step) (b : Bool), enriched[i]? = some (st, b) →
        ((b = true ↔ (st.index : Int) > prog + 1) ∧
         (b = false ↔ (st.index : Int) ≤ prog + 1)) := by
  intro user domain enriched prog h i st b hmem
  cases hdom : roadmapLookup domain with
  | none => simp [get_roadmap, hdom] at h
  | some steps =>
    simp only [get_roadmap, hdom, Except.ok.injEq, Prod.mk.injEq] at h
    obtain ⟨h1, h2⟩ := h
    subst h1
    subst h2
    rw [List.getElem?_map] at hmem
    cases hst : steps[i]? with
    | none => rw [hst] at hmem; simp at hmem
    | some st0 =>
      rw [hst] at hmem
      simp only [Option.map_some', Option.some.injEq, Prod.mk.injEq] at hmem
      obtain ⟨hst0, hb⟩ := hmem
      subst hst0
      subst hb
      constructor
      · rw [decide_eq_true_eq]
      · rw [decide_eq_false_iff_not, not_lt]

/-- Witness for C8: with completed = 1 in "Backend Development", the third
catalog step (index 3) is marked locked, because 3 > 1 + 1. -/
theorem c8_witness :
    (((expandSteps backendBase).get ⟨2, by decide⟩).index : Int) > 1 + 1 := by
  have h := c8_locked_rule db1ex.user "Backend Development"
    ((expandSteps backendBase).map
      (fun st => (st, decide ((st.index : Int) >
        progressGet db1ex.user.progress "Backend Development" + 1))))
    (progressGet db1ex.user.progress "Backend Development") rfl 2
    ((expandSteps backendBase).get ⟨2, by decide⟩) true (by decide)
  have h2 : progressGet db1ex.user.progress "Backend Development" = 1 := by decide
  rw [h2] at h
  exact h.1.mp rfl

/-- Claim C9: a passing submission for a domain writes only that domain's
progress entry: every other domain's stored value is unchanged and every other
user field (id, name, email, phone, qualification, password hash, salt,
domains, tokens) is unchanged. -/
theorem c9_frame_effect :
    ∀ (db : DB) (domain : String) (si : Int) (answers : List Int),
      (submit_assessment db domain si answers).2.toOption.map
          SubmitResponse.passed = some true →
      ((submit_assessment db domain si answers).1.user.progress
          = progressSet db.user.progress domain si ∧
       progressGet (submit_assessment db domain si answers).1.user.progress domain
          = si ∧
       (∀ d', d' ≠ domain →
          progressGet (submit_assessment db domain si answers).1.user.progress d'
            = progressGet db.user.progress d') ∧
       (submit_assessment db domain si answers).1.user.id = db.user.id ∧
       (submit_assessment db domain si answers).1.user.first_name
          = db.user.first_name ∧
       (submit_assessment db domain si answers).1.user.last_name
          = db.user.last_name ∧
       (submit_assessment db domain si answers).1.user.email = db.user.email ∧
       (submit_assessment db domain si answers).1.user.phone = db.user.phone ∧
       (submit_assessment db domain si answers).1.user.qualification
          = db.user.qualification ∧
       (submit_assessment db domain si answers).1.user.password_hash
          = db.user.password_hash ∧
       (submit_assessment db domain si answers).1.user.salt = db.user.salt ∧
       (submit_assessment db domain si answers).1.user.domains = db.user.domains ∧
       (submit_assessment db domain si answers).1.user.tokens = db.user.tokens) := by
  intro db domain si answers h
  rcases submit_spec db domain si answers with ⟨e, heq⟩ |
    ⟨steps, step, hdom, hfind, hseq, hlen, heq⟩
  · rw [heq] at h; simp [Except.toOption] at h
  · rw [heq] at h
    simp only [Except.toOption, Option.map_some] at h
    have hp : (grade step.quiz.questions answers).passed = true := by simpa using h
    have h1 : (submit_assessment db domain si answers).1.user
        = { db.user with progress := progressSet db.user.progress domain si } := by
      rw [heq]; simp [hp]
    rw [h1]
    exact ⟨rfl, progressGet_progressSet_self _ _ _,
      fun d' hd' => progressGet_progressSet_ne _ _ _ _ hd',
      rfl, rfl, rfl, rfl, rfl, rfl, rfl, rfl, rfl, rfl⟩

/-- Witness for C9: the passing 1/1 submission to step 1 of
"Backend Development" writes exactly the Backend progress entry, leaves
another domain's (absent) entry at its default, and keeps the user's email. -/
theorem c9_witness :
    (submit_assessment db0 "Backend Development" 1 [0]).1.user.progress
        = progressSet db0.user.progress "Backend Development" 1 ∧
    progressGet (submit_assessment db0 "Backend Development" 1 [0]).1.user.progress
        "DevOps" = progressGet db0.user.progress "DevOps" ∧
    (submit_assessment db0 "Backend Development" 1 [0]).1.user.email
        = db0.user.email := by
  obtain ⟨h1, _, hother, _, _, _, _, _, _, _, _, _, hmail⟩ :=
    c9_frame_effect db0 "Backend Development" 1 [0] rfl
  exact ⟨h1, hother "DevOps" (by decide), by
    exact (c9_frame_effect db0 "Backend Development" 1 [0] rfl).2.2.2.2.2.2.1⟩

/-- Claim C10: every stored correctOptionIndex in the catalog is a valid index
into its options list; grading never fails on an answer value — an answer that
is not a valid option index (negative or past the end) simply compares unequal
to the correct index and is graded false; and once the answer count matches,
submit_assessment returns a graded Except.ok result whatever the answer
values are. -/
theorem c10_invalid_answers_graded_false :
    (∀ p ∈ ROADMAP, ∀ st ∈ p.2, ∀ q ∈ st.quiz.questions,
        0 ≤ q.correct ∧ q.correct < (q.a.length : Int)) ∧
    (∀ (questions : List Question) (answers : List Int) (i : Nat)
        (q : Question) (a : Int),
        questions[i]? = some q → answers[i]? = some a →
        (a < 0 ∨ (q.a.length : Int) ≤ a) →
        0 ≤ q.correct → q.correct < (q.a.length : Int) →
        (grade questions answers).results[i]? = some false) ∧
    (∀ (db : DB) (domain : String) (si : Int) (answers : List Int)
        (steps : List Step),
        roadmapLookup domain = some steps →
        (steps.find? (fun s => ((s.index : Int) == si))).map
            (fun st => st.quiz.questions.length) = some answers.length →
        si = progressGet db.user.progress domain + 1 →
        (submit_assessment db domain si answers).2.isOk = true) := by
  refine ⟨by decide, ?_, ?_⟩
  · intro qs ans i q a hq ha hrange h0 hlt
    rw [grade_results_getElem? qs ans i q a hq ha]
    have hne : (a == q.correct) = false := by
      rw [beq_eq_false_iff_ne]
      intro hcontra
      rcases hrange with hr | hr <;> omega
    rw [hne]
  · intro db domain si answers steps hdom hmap hseq
    cases hfind : steps.find? (fun s => ((s.index : Int) == si)) with
    | none => rw [hfind] at hmap; exact absurd hmap (by simp)
    | some step =>
    rw [hfind] at hmap
    have hn : step.quiz.questions.length = answers.length := by simpa using hmap
    simp only [submit_assessment, hdom, hfind]
    rw [if_neg (by simp [hseq]), if_neg (by simp [hn])]
    rfl

/-- Witness for C10: for the shared bank's first question (two options,
correct index 0), the out-of-range answer -5 is graded false, and submitting
the single out-of-range answer -5 to step 1 of "Backend Development" still
returns a graded ok result. -/
theorem c10_witness :
    (grade standard_20_questions ((-5 : Int) :: List.replicate 19 0)).results[0]?
        = some false ∧
    (submit_assessment db0 "Backend Development" 1 [(-5 : Int)]).2.isOk = true := by
  constructor
  · exact c10_invalid_answers_graded_false.2.1 standard_20_questions
      ((-5 : Int) :: List.replicate 19 0) 0
      { q := "HTTP status 200 means?", a := ["OK", "Not Found"], correct := 0 }
      (-5) (by simp [standard_20_questions]) (by simp) (Or.inl (by decide))
      (by decide) (by decide)
  · exact c10_invalid_answers_graded_false.2.2 db0 "Backend Development" 1
      [(-5 : Int)] (expandSteps backendBase) rfl (by decide) (by decide)

/-- Claim C5: for every domain with n base lessons, the built catalog is the
interleaving Lesson 1, Assessment 1, ..., Lesson n, Assessment n, followed by
the final assessment, with contiguous indices 1..(2n+1) in that order; each
lesson slot 2i carries the i-th base lesson; every generated assessment step
carries exactly the shared fixed 20-question bank; and the final step of every
domain is an assessment. -/
theorem c5_catalog_shape :
    ∀ (d : String) (base : List BaseStep), (d, base) ∈ BASE_ROADMAP →
      ((d, expandSteps base) ∈ ROADMAP ∧
       (expandSteps base).length = 2 * base.length + 1 ∧
       (expandSteps base).map (fun st => st.index)
          = List.range' 1 (2 * base.length + 1) ∧
       (expandSteps base).map (fun st => st.kind)
          = (List.replicate base.length [StepKind.lesson, StepKind.assessment]).flatten
              ++ [StepKind.assessment] ∧
       (∀ (i : Nat) (b : BaseStep), base[i]? = some b →
          (expandSteps base)[2 * i]? = some (lessonStep (1 + 2 * i) b)) ∧
       (∀ st ∈ expandSteps base, st.kind = StepKind.assessment →
          st.quiz.questions = standard_20_questions ∧
          st.quiz.questions.length = 20) ∧
       ((expandSteps base).getLast?).map (fun st => st.kind)
          = some StepKind.assessment) := by
  intro d base hmem
  refine ⟨List.mem_map.mpr ⟨(d, base), hmem, rfl⟩, expandAux_length base 1 1,
    expandAux_index_map base 1 1, expandAux_kinds base 1 1,
    fun i b h => expandAux_lesson_getElem? base 1 1 i b h,
    fun st hst hk => ⟨expandAux_assessment_quiz base 1 1 st hst hk, ?_⟩,
    expandSteps_getLast_kind base⟩
  rw [expandAux_assessment_quiz base 1 1 st hst hk]
  decide

/-- Witness for C5: the "Backend Development" catalog has the expected length
5 = 2*2+1, the index sequence 1..5, and ends in an assessment. -/
theorem c5_witness :
    (expandSteps backendBase).length = 2 * backendBase.length + 1 ∧
    (expandSteps backendBase).map (fun st => st.index) = List.range' 1 5 ∧
    ((expandSteps backendBase).getLast?).map (fun st => st.kind)
        = some StepKind.assessment := by
  obtain ⟨hmem, hlen, hidx, hkinds, hles, hass, hlast⟩ :=
    c5_catalog_shape "Backend Development" backendBase (by decide)
  have h5 : 2 * backendBase.length + 1 = 5 := by decide
  rw [h5] at hidx
  exact ⟨hlen, hidx, hlast⟩

end Lernify
